import Mathlib

/-!
Shallow embedding of the Voltage-Pricer load-curve core
(`src/ingestion/curve_generator.py`, `LoadCurveGenerator.generate_profile`)
and of the hourly-sheet slice of the spreadsheet exporter
(`src/reporting/excel_export.py`, `export_pricing_to_excel`).

Modelling choices:
* The hourly calendar `pd.date_range(f"{year}-01-01", f"{year}-12-31 23:00", freq="h")`
  is embedded as index arithmetic: hour `i` of the year has hour-of-day `i % 24`
  and pandas weekday `(jan1DayOfWeek year + i / 24) % 7` (Monday = 0), where
  `jan1DayOfWeek` follows the proleptic Gregorian calendar (pandas' calendar),
  anchored at Jan 1 of year 1 being a Monday.
* Floating-point numbers are idealised as an arbitrary linear ordered field,
  instantiated at `ℚ` for executable witnesses and at `ℝ` where the solar sine
  appears.
* `np.random.normal(...)` draws are an oracle `noise : ℕ → α` (the i-th value the
  random source produces), the Elia retriever `fetch_real_load_curve` is an oracle
  `fetch : ℕ → List α` from the requested number of days to the returned samples,
  and `SETTINGS.WEEKEND_DAYS` is a parameter `weekendDays : List ℕ`, since settings
  and the Elia client are external collaborators of this core.
-/

set_option maxRecDepth 4000
set_option linter.unusedSectionVars false

namespace VoltagePricer

/-- Gregorian leap-year rule, as used by pandas when building the year calendar. -/
def isLeapYear (y : ℕ) : Bool :=
  (y % 4 == 0 && y % 100 != 0) || (y % 400 == 0)

/-- Number of days in the target year. -/
def daysInYear (y : ℕ) : ℕ := if isLeapYear y then 366 else 365

/-- Embeds `self.n_hours = len(self.dates)`: the hourly index from Jan 1 00:00 to
Dec 31 23:00 has one entry per hour of the year. -/
def nHours (y : ℕ) : ℕ := 24 * daysInYear y

/-- Pandas weekday (Monday = 0) of Jan 1 of year `y`, proleptic Gregorian:
days elapsed before year `y` from the Monday Jan 1 of year 1, mod 7. -/
def jan1DayOfWeek (y : ℕ) : ℕ :=
  (365 * (y - 1) + (y - 1) / 4 - (y - 1) / 100 + (y - 1) / 400) % 7

/-- Embeds `self.dates.hour` at position `i`: the calendar starts at 00:00, so
hour `i` of the year falls at hour-of-day `i % 24`. -/
def hourOfDay (i : ℕ) : ℕ := i % 24

/-- Embeds `self.dates.dayofweek` at position `i` (Monday = 0 … Sunday = 6). -/
def dayOfWeek (y i : ℕ) : ℕ := (jan1DayOfWeek y + i / 24) % 7

/-- Embeds `self.dates.dayofweek.isin(SETTINGS.WEEKEND_DAYS)` at position `i`. -/
def isWeekend (weekendDays : List ℕ) (y i : ℕ) : Bool :=
  weekendDays.contains (dayOfWeek y i)

/-- Embeds the working-hour mask of the OFFICE_BUILDING branch:
`(hour >= 8) & (hour <= 18) & (self.dates.dayofweek < 5)`. -/
def isWorking (y i : ℕ) : Bool :=
  decide (8 ≤ hourOfDay i) && decide (hourOfDay i ≤ 18) && decide (dayOfWeek y i < 5)

/-- Embeds the daylight mask of the SOLAR_PPA branch: `(hour >= 6) & (hour <= 20)`. -/
def daylight (i : ℕ) : Bool :=
  decide (6 ≤ hourOfDay i) && decide (hourOfDay i ≤ 20)

/-- Rank of hour `i` among the working hours, in calendar order.  Numpy's fancy
assignment `base_curve[is_working] = np.random.normal(1.0, 0.1, is_working.sum())`
gives the `k`-th working hour the `k`-th fresh draw; `workRank` is that `k`. -/
def workRank (y i : ℕ) : ℕ :=
  ((List.range i).filter (fun j => isWorking y j)).length

variable {α : Type} [LinearOrderedField α]

/-- Embeds the synthetic INDUSTRY_24_7 shape (lines 98–113):
`base_curve = np.random.normal(1.0, 0.05, self.n_hours)` followed by
`base_curve[is_weekend] *= 0.85`.  `noise i` stands for the i-th Gaussian
draw of mean 1.0 and standard deviation 0.05. -/
def industryShape (weekendDays : List ℕ) (y : ℕ) (noise : ℕ → α) : List α :=
  (List.range (nHours y)).map
    (fun i => if isWeekend weekendDays y i then noise i * 0.85 else noise i)

/-- Embeds the OFFICE_BUILDING shape (lines 121–137):
`base_curve[is_working] = np.random.normal(1.0, 0.1, is_working.sum())` and
`base_curve[~is_working] = 0.1`.  `noise k` stands for the k-th Gaussian draw
of mean 1.0 and standard deviation 0.1. -/
def officeShape (y : ℕ) (noise : ℕ → α) : List α :=
  (List.range (nHours y)).map
    (fun i => if isWorking y i then noise (workRank y i) else 0.1)

/-- Embeds the SOLAR_PPA shape (lines 145–161): the zero-initialised curve gets
`base_curve[daylight] = np.sin((hour[daylight] - 6) * np.pi / 14)` and is then
clamped with `base_curve = np.maximum(base_curve, 0)`.  `sinVal h` stands for
`sin((h - 6) * π / 14)` at hour-of-day `h`. -/
def solarShape (y : ℕ) (sinVal : ℕ → α) : List α :=
  ((List.range (nHours y)).map
    (fun i => if daylight i then sinVal (hourOfDay i) else 0)).map
    (fun v => max v 0)

/-- Exact value of the solar branch's sine term at hour-of-day `h`:
`np.sin((hour - 6) * np.pi / 14)` idealised over the reals. -/
noncomputable def solarSin (h : ℕ) : ℝ :=
  Real.sin (((h : ℝ) - 6) * Real.pi / 14)

/-- Embeds lines 66–68: `repeats = int((self.n_hours // len(pattern)) + 1)` and
`full_pattern = np.tile(pattern, repeats)[: self.n_hours]`. -/
def tile (pattern : List α) (n : ℕ) : List α :=
  (List.flatten (List.replicate (n / pattern.length + 1) pattern)).take n

/-- Embeds the real-data-branch normalisation (lines 71–77): if the tiled
pattern sums to zero the result is `np.zeros(self.n_hours)`, otherwise the
curve is rescaled to the requested annual volume. -/
def normalizeReal (n : ℕ) (curve : List α) (annualVolume : α) : List α :=
  if curve.sum = 0 then List.replicate n 0
  else curve.map (fun v => v / curve.sum * annualVolume)

/-- Embeds the synthetic-branch normalisation (lines 166–175): rescale when the
total is strictly positive, otherwise return the curve unchanged. -/
def normalizeSyn (curve : List α) (annualVolume : α) : List α :=
  if 0 < curve.sum then curve.map (fun v => v / curve.sum * annualVolume)
  else curve

/-- Result of `generate_profile`: the returned hourly series, the name given to
the pandas Series, and the argument of the `fetch_real_load_curve` call when one
was made (`none` when the Elia retriever was not contacted). -/
structure GenResult (α : Type) where
  series : List α
  name : String
  fetched : Option ℕ
  deriving Repr

/-- Embeds `LoadCurveGenerator.generate_profile` for a generator built on year
`y`.  For INDUSTRY_24_7 the code first calls `fetch_real_load_curve(days=14)`;
a non-empty response is tiled over the year and normalised by the real-data
normaliser and returned at once, an empty response falls through to the
synthetic generator.  The synthetic path dispatches on the archetype string,
leaves the zero-initialised curve untouched for unrecognised strings, and
applies the synthetic normaliser. -/
def generateProfile (y : ℕ) (weekendDays : List ℕ) (sinVal : ℕ → α)
    (fetch : ℕ → List α) (noise : ℕ → α)
    (profileType : String) (annualVolume : α) : GenResult α :=
  if profileType = "INDUSTRY_24_7" ∧ fetch 14 ≠ [] then
    { series := normalizeReal (nHours y) (tile (fetch 14) (nHours y)) annualVolume
      name := "Real Load (MWh)"
      fetched := some 14 }
  else
    let baseCurve : List α :=
      if profileType = "INDUSTRY_24_7" then industryShape weekendDays y noise
      else if profileType = "OFFICE_BUILDING" then officeShape y noise
      else if profileType = "SOLAR_PPA" then solarShape y sinVal
      else List.replicate (nHours y) 0
    { series := normalizeSyn baseCurve annualVolume
      name := "Synthetic Load"
      fetched := if profileType = "INDUSTRY_24_7" then some 14 else none }

/-- Embeds the hourly-data worksheet of `export_pricing_to_excel` (lines 72–95):
the whole `load_curve` is written below the header row, and the inserted line
chart's series references sheet rows `chartFirstRow` to `chartLastRow`
(`'=Données Horaires!$B$2:$B$169'`). -/
structure HourlySheetExport (α : Type) where
  dataRows : List α
  chartFirstRow : ℕ
  chartLastRow : ℕ
  deriving Repr

/-- Embeds the construction of the 'Données Horaires' worksheet and its chart:
`df_load.to_excel(...)` writes every point of the load curve, and the chart
series ranges are the literal rows 2 through 169. -/
def exportHourlySheet (loadCurve : List α) : HourlySheetExport α :=
  { dataRows := loadCurve
    chartFirstRow := 2
    chartLastRow := 169 }

/-- Points the inserted chart displays: sheet row `r` (for `r ≥ 2`) holds
`loadCurve[r - 2]`, so the referenced rows 2–169 hold the first 168 points. -/
def chartDisplayedPoints (loadCurve : List α) : List α :=
  loadCurve.take ((exportHourlySheet loadCurve).chartLastRow
    - (exportHourlySheet loadCurve).chartFirstRow + 1)

/-! Helper lemmas about the embedded operations. -/

lemma sum_map_mul_const (l : List α) (r : α) :
    (l.map (fun x => x * r)).sum = l.sum * r := by
  induction l with
  | nil => simp
  | cons a t ih => simp [ih, add_mul]

lemma sum_map_div_mul (c : List α) (v : α) (hT : c.sum ≠ 0) :
    (c.map (fun x => x / c.sum * v)).sum = v := by
  have h1 : (fun x : α => x / c.sum * v) = fun x => x * (v / c.sum) := by
    funext x; ring
  rw [h1, sum_map_mul_const, mul_comm, div_mul_cancel₀ _ hT]

lemma normalizeSyn_length (c : List α) (v : α) :
    (normalizeSyn c v).length = c.length := by
  simp only [normalizeSyn]
  split <;> simp

lemma normalizeSyn_sum_pos (c : List α) (v : α) (h : 0 < c.sum) :
    (normalizeSyn c v).sum = v := by
  simp only [normalizeSyn, if_pos h]
  exact sum_map_div_mul c v (ne_of_gt h)

lemma normalizeSyn_not_pos (c : List α) (v : α) (h : ¬ 0 < c.sum) :
    normalizeSyn c v = c := by
  simp only [normalizeSyn, if_neg h]

lemma normalizeSyn_getD (c : List α) (v : α) (i : ℕ) :
    (normalizeSyn c v).getD i 0 =
      if 0 < c.sum then c.getD i 0 / c.sum * v else c.getD i 0 := by
  by_cases h : 0 < c.sum
  · simp only [normalizeSyn, if_pos h]
    by_cases hi : i < c.length
    · rw [List.getD_eq_getElem _ _ (by simpa using hi), List.getElem_map,
        List.getD_eq_getElem _ _ hi]
    · rw [List.getD_eq_default _ _ (by simpa using not_lt.mp hi),
        List.getD_eq_default _ _ (not_lt.mp hi), zero_div, zero_mul]
  · simp only [normalizeSyn, if_neg h]

lemma range_map_getD (n i : ℕ) (f : ℕ → α) (hi : i < n) :
    (((List.range n).map f).getD i 0) = f i := by
  rw [List.getD_eq_getElem _ _ (by simpa using hi), List.getElem_map, List.getElem_range]

lemma flatten_replicate_length (pat : List α) (k : ℕ) :
    (List.flatten (List.replicate k pat)).length = k * pat.length := by
  rw [List.length_flatten, List.map_replicate, List.sum_replicate, smul_eq_mul]

lemma flatten_replicate_getD (pat : List α) (k i : ℕ) (hi : i < k * pat.length) :
    (List.flatten (List.replicate k pat)).getD i 0 = pat.getD (i % pat.length) 0 := by
  induction k generalizing i with
  | zero => simp at hi
  | succ k ih =>
    rw [List.replicate_succ, List.flatten_cons]
    by_cases h : i < pat.length
    · rw [List.getD_append _ _ _ _ h, Nat.mod_eq_of_lt h]
    · push_neg at h
      rw [Nat.succ_mul] at hi
      rw [List.getD_append_right _ _ _ _ h, ih (i - pat.length) (by omega)]
      have hmod : (i - pat.length) % pat.length = i % pat.length := by
        conv_rhs => rw [← Nat.sub_add_cancel h]
        rw [Nat.add_mod_right]
      rw [hmod]

lemma lt_tile_bound (n L : ℕ) (hL : 0 < L) : n < (n / L + 1) * L := by
  have h1 := Nat.div_add_mod n L
  have h2 := Nat.mod_lt n hL
  calc n = L * (n / L) + n % L := h1.symm
    _ < L * (n / L) + L := by omega
    _ = (n / L + 1) * L := by ring

lemma tile_length (pat : List α) (n : ℕ) (hp : pat ≠ []) :
    (tile pat n).length = n := by
  have hL : 0 < pat.length := List.length_pos.mpr hp
  rw [tile, List.length_take, flatten_replicate_length]
  exact Nat.min_eq_left (le_of_lt (lt_tile_bound n pat.length hL))

lemma tile_getD (pat : List α) (n i : ℕ) (hp : pat ≠ []) (hi : i < n) :
    (tile pat n).getD i 0 = pat.getD (i % pat.length) 0 := by
  have hL : 0 < pat.length := List.length_pos.mpr hp
  have hb : i < (n / pat.length + 1) * pat.length :=
    lt_trans hi (lt_tile_bound n pat.length hL)
  have hlen : i < (List.flatten (List.replicate (n / pat.length + 1) pat)).length := by
    rw [flatten_replicate_length]; exact hb
  have htake : i < (tile pat n).length := by
    rw [tile_length pat n hp]; exact hi
  rw [tile] at htake
  rw [tile, List.getD_eq_getElem _ _ htake, List.getElem_take,
    ← List.getD_eq_getElem _ 0 hlen]
  exact flatten_replicate_getD pat _ i hb

lemma flatten_replicate_sum (pat : List α) (k : ℕ) :
    (List.flatten (List.replicate k pat)).sum = k • pat.sum := by
  induction k with
  | zero => simp
  | succ k ih =>
    rw [List.replicate_succ, List.flatten_cons, List.sum_append, ih, succ_nsmul, add_comm]

lemma take_flatten_replicate (pat : List α) (m k : ℕ) (h : m ≤ k) :
    (List.flatten (List.replicate k pat)).take (m * pat.length) =
      List.flatten (List.replicate m pat) := by
  induction m generalizing k with
  | zero => simp
  | succ m ih =>
    obtain ⟨k', rfl⟩ : ∃ k', k = k' + 1 := ⟨k - 1, by omega⟩
    rw [List.replicate_succ, List.flatten_cons, List.replicate_succ, List.flatten_cons,
      Nat.succ_mul, add_comm (m * pat.length) pat.length, List.take_append]
    rw [ih k' (by omega)]

lemma generateProfile_real (y : ℕ) (wd : List ℕ) (sv : ℕ → α) (fetch : ℕ → List α)
    (noise : ℕ → α) (vol : α) (h : fetch 14 ≠ []) :
    generateProfile y wd sv fetch noise "INDUSTRY_24_7" vol =
      { series := normalizeReal (nHours y) (tile (fetch 14) (nHours y)) vol
        name := "Real Load (MWh)"
        fetched := some 14 } := by
  unfold generateProfile
  rw [if_pos (And.intro rfl h)]

lemma generateProfile_fallback (y : ℕ) (wd : List ℕ) (sv : ℕ → α) (fetch : ℕ → List α)
    (noise : ℕ → α) (pt : String) (vol : α)
    (h : ¬(pt = "INDUSTRY_24_7" ∧ fetch 14 ≠ [])) :
    generateProfile y wd sv fetch noise pt vol =
      { series := normalizeSyn
          (if pt = "INDUSTRY_24_7" then industryShape wd y noise
           else if pt = "OFFICE_BUILDING" then officeShape y noise
           else if pt = "SOLAR_PPA" then solarShape y sv
           else List.replicate (nHours y) 0) vol
        name := "Synthetic Load"
        fetched := if pt = "INDUSTRY_24_7" then some 14 else none } := by
  unfold generateProfile
  rw [if_neg h]

lemma industryShape_getD (wd : List ℕ) (y : ℕ) (noise : ℕ → α) (i : ℕ)
    (hi : i < nHours y) :
    (industryShape wd y noise).getD i 0 =
      if isWeekend wd y i then noise i * 0.85 else noise i :=
  range_map_getD _ _ _ hi

lemma officeShape_getD (y : ℕ) (noise : ℕ → α) (i : ℕ) (hi : i < nHours y) :
    (officeShape y noise).getD i 0 =
      if isWorking y i then noise (workRank y i) else 0.1 :=
  range_map_getD _ _ _ hi

lemma solarShape_eq (y : ℕ) (sv : ℕ → α) :
    solarShape y sv = (List.range (nHours y)).map
      (fun i => max (if daylight i then sv (hourOfDay i) else 0) 0) := by
  simp only [solarShape, List.map_map]
  rfl

lemma solarShape_getD (y : ℕ) (sv : ℕ → α) (i : ℕ) (hi : i < nHours y) :
    (solarShape y sv).getD i 0 =
      max (if daylight i then sv (hourOfDay i) else 0) 0 := by
  rw [solarShape_eq]
  exact range_map_getD _ _ _ hi

lemma solarShape_mem_nonneg (y : ℕ) (sv : ℕ → α) :
    ∀ x ∈ solarShape y sv, 0 ≤ x := by
  intro x hx
  simp only [solarShape, List.mem_map] at hx
  obtain ⟨v, _, rfl⟩ := hx
  exact le_max_right v 0

/-! Claim theorems. -/

/-- Claim C1 (amended): in the normalization step, a curve with strictly
positive pre-normalization sum is rescaled elementwise to
`curve[i] / total * annual_volume_mwh` and the result sums exactly to the
requested annual volume, in both the synthetic normalizer and the real-data
normalizer; a curve with pre-normalization sum exactly zero is returned
unchanged by the synthetic normalizer, while the real-data normalizer returns
a fresh all-zero series of calendar length (which equals the input curve only
when that curve is itself all zeros). -/
theorem C1_normalizer_energy_conservation (n : ℕ) (curve : List ℚ) (vol : ℚ) :
    (0 < curve.sum →
      normalizeSyn curve vol = curve.map (fun v => v / curve.sum * vol) ∧
      (normalizeSyn curve vol).sum = vol ∧
      normalizeReal n curve vol = curve.map (fun v => v / curve.sum * vol) ∧
      (normalizeReal n curve vol).sum = vol) ∧
    (curve.sum = 0 →
      normalizeSyn curve vol = curve ∧
      normalizeReal n curve vol = List.replicate n 0) := by
  constructor
  · intro h
    have hne : curve.sum ≠ 0 := ne_of_gt h
    refine ⟨by simp only [normalizeSyn, if_pos h], normalizeSyn_sum_pos curve vol h,
      by simp only [normalizeReal, if_neg hne], ?_⟩
    simp only [normalizeReal, if_neg hne]
    exact sum_map_div_mul curve vol hne
  · intro h
    refine ⟨normalizeSyn_not_pos curve vol (by rw [h]; exact lt_irrefl 0), ?_⟩
    simp only [normalizeReal, if_pos h]

/-- Witness for C1 at concrete inputs: the curve `[1, 2, 3]` with target volume
`12` rescales to total `12`, and the zero-sum curve `[0, 0]` is returned
unchanged by the synthetic normalizer. -/
theorem C1_witness :
    (0 : ℚ) < ([1, 2, 3] : List ℚ).sum ∧
    (normalizeSyn ([1, 2, 3] : List ℚ) 12).sum = 12 ∧
    ([0, 0] : List ℚ).sum = 0 ∧
    normalizeSyn ([0, 0] : List ℚ) 12 = [0, 0] :=
  ⟨by norm_num [List.sum_cons],
   ((C1_normalizer_energy_conservation 2 [1, 2, 3] 12).1
      (by norm_num [List.sum_cons])).2.1,
   by norm_num [List.sum_cons],
   ((C1_normalizer_energy_conservation 2 [0, 0] 12).2
      (by norm_num [List.sum_cons])).1⟩

/-- Claim C1, counterexample to the claim as stated: in the real-data branch a
zero-sum curve is not returned unchanged.  With the fetched pattern `[1, -1]`
the tiled year-long curve sums to zero, and `generate_profile` returns the
all-zero series `np.zeros(n_hours)` instead of the (non-zero) tiled curve. -/
theorem C1_counterexample :
    (tile ([1, -1] : List ℚ) (nHours 2026)).sum = 0 ∧
    (generateProfile 2026 [5, 6] (fun _ => 0) (fun _ => ([1, -1] : List ℚ))
        (fun _ => 0) "INDUSTRY_24_7" 100).series ≠
      tile ([1, -1] : List ℚ) (nHours 2026) := by
  have hn : nHours 2026 = 8760 := by norm_num [nHours, daysInYear, isLeapYear]
  have hpat : ([1, -1] : List ℚ) ≠ [] := by simp
  have hlen : ([1, -1] : List ℚ).length = 2 := rfl
  have hsum : (tile ([1, -1] : List ℚ) (nHours 2026)).sum = 0 := by
    simp only [tile, hlen, hn]
    rw [show (8760 / 2 + 1 : ℕ) = 4381 from by norm_num,
      show (8760 : ℕ) = 4380 * 2 from by norm_num,
      show (2 : ℕ) = ([1, -1] : List ℚ).length from rfl,
      take_flatten_replicate _ 4380 4381 (by norm_num),
      flatten_replicate_sum]
    norm_num
  refine ⟨hsum, ?_⟩
  intro he
  have hser : (generateProfile 2026 [5, 6] (fun _ => 0) (fun _ => ([1, -1] : List ℚ))
      (fun _ => 0) "INDUSTRY_24_7" 100).series =
      List.replicate (nHours 2026) 0 := by
    rw [generateProfile_real _ _ _ _ _ _ hpat]
    simp only [normalizeReal]
    rw [if_pos hsum]
  have h0 : (List.replicate (nHours 2026) (0 : ℚ)).getD 0 0 = 0 := by
    rw [List.getD_eq_getElem _ _ (by rw [List.length_replicate, hn]; norm_num),
      List.getElem_replicate]
  have h1 : (tile ([1, -1] : List ℚ) (nHours 2026)).getD 0 0 = 1 := by
    rw [tile_getD _ _ _ hpat (by rw [hn]; norm_num), hlen]
    rfl
  rw [hser] at he
  rw [he, h1] at h0
  norm_num at h0

/-- Claim C2: for every archetype string and target year, the series returned
by `generate_profile` has exactly one value per hour of the generator's
calendar — `nHours` entries, which is 8760 for a non-leap year and 8784 for a
leap year. -/
theorem C2_series_length_matches_calendar (y : ℕ) (wd : List ℕ) (sv : ℕ → ℚ)
    (fetch : ℕ → List ℚ) (noise : ℕ → ℚ) (pt : String) (vol : ℚ) :
    (generateProfile y wd sv fetch noise pt vol).series.length = nHours y ∧
    nHours y = (if isLeapYear y then 8784 else 8760) := by
  constructor
  · by_cases h : pt = "INDUSTRY_24_7" ∧ fetch 14 ≠ []
    · obtain ⟨h1, h2⟩ := h
      subst h1
      rw [generateProfile_real _ _ _ _ _ _ h2]
      simp only [normalizeReal]
      split
      · simp
      · rw [List.length_map, tile_length _ _ h2]
    · rw [generateProfile_fallback _ _ _ _ _ _ _ h]
      simp only [normalizeSyn_length]
      by_cases h1 : pt = "INDUSTRY_24_7"
      · simp [h1, industryShape]
      · by_cases h2 : pt = "OFFICE_BUILDING"
        · simp [h1, h2, officeShape]
        · by_cases h3 : pt = "SOLAR_PPA"
          · simp [h1, h2, h3, solarShape]
          · simp [h1, h2, h3]
  · simp only [nHours, daysInYear]
    split <;> norm_num

/-- Claim C3: for INDUSTRY_24_7 with a non-empty retriever response,
`generate_profile` returns at once a series labelled as real-data-derived,
equal to the fetched pattern tiled over the calendar (position `i` of the
tiled curve holds `pattern[i mod len(pattern)]`), passed through the real-data
normalizer; the synthetic shaping is not executed — the result is independent
of the random source. -/
theorem C3_real_data_short_circuit (y : ℕ) (wd : List ℕ) (sv : ℕ → ℚ)
    (fetch : ℕ → List ℚ) (noise : ℕ → ℚ) (vol : ℚ)
    (h : fetch 14 ≠ []) :
    (generateProfile y wd sv fetch noise "INDUSTRY_24_7" vol).name = "Real Load (MWh)" ∧
    (generateProfile y wd sv fetch noise "INDUSTRY_24_7" vol).series =
      normalizeReal (nHours y) (tile (fetch 14) (nHours y)) vol ∧
    (∀ i, i < nHours y →
      (tile (fetch 14) (nHours y)).getD i 0 =
        (fetch 14).getD (i % (fetch 14).length) 0) ∧
    (∀ noise' : ℕ → ℚ,
      generateProfile y wd sv fetch noise "INDUSTRY_24_7" vol =
        generateProfile y wd sv fetch noise' "INDUSTRY_24_7" vol) := by
  refine ⟨?_, ?_, fun i hi => tile_getD _ _ _ h hi, fun noise' => ?_⟩
  · rw [generateProfile_real _ _ _ _ _ _ h]
  · rw [generateProfile_real _ _ _ _ _ _ h]
  · rw [generateProfile_real _ _ _ _ _ _ h, generateProfile_real _ _ _ _ _ _ h]

/-- Witness for C3: with the concrete two-sample pattern `[2, 1]` the result is
labelled as derived from real data. -/
theorem C3_witness :
    (fun _ : ℕ => ([2, 1] : List ℚ)) 14 ≠ [] ∧
    (generateProfile 2026 [5, 6] (fun _ => 0) (fun _ => ([2, 1] : List ℚ))
        (fun _ => 0) "INDUSTRY_24_7" 100).name = "Real Load (MWh)" :=
  ⟨by simp,
   (C3_real_data_short_circuit 2026 [5, 6] (fun _ => 0)
      (fun _ => ([2, 1] : List ℚ)) (fun _ => 0) 100 (by simp)).1⟩

/-- Claim C4: for SOLAR_PPA with positive annual volume the returned series is
non-negative at every hour and exactly zero at every hour whose hour-of-day is
outside [6, 20]; each daylight hour carries the pre-normalization value
`sin((hour - 6) * π / 14)` clamped to non-negative. -/
theorem C4_solar_nonneg_zero_at_night (y : ℕ) (wd : List ℕ) (fetch : ℕ → List ℝ)
    (noise : ℕ → ℝ) (vol : ℝ) (hvol : 0 < vol) :
    (∀ x ∈ (generateProfile y wd solarSin fetch noise "SOLAR_PPA" vol).series,
      0 ≤ x) ∧
    (∀ i, i < nHours y → (hourOfDay i < 6 ∨ 20 < hourOfDay i) →
      (generateProfile y wd solarSin fetch noise "SOLAR_PPA" vol).series.getD i 0
        = 0) ∧
    (∀ i, i < nHours y → 6 ≤ hourOfDay i → hourOfDay i ≤ 20 →
      (solarShape y solarSin).getD i 0 =
        max (Real.sin (((hourOfDay i : ℝ) - 6) * Real.pi / 14)) 0) := by
  have hser : (generateProfile y wd solarSin fetch noise "SOLAR_PPA" vol).series =
      normalizeSyn (solarShape y solarSin) vol := by
    rw [generateProfile_fallback _ _ _ _ _ _ _ (by simp)]
    simp
  refine ⟨?_, ?_, ?_⟩
  · rw [hser]
    intro x hx
    simp only [normalizeSyn] at hx
    split at hx
    case isTrue hpos =>
      simp only [List.mem_map] at hx
      obtain ⟨v, hv, rfl⟩ := hx
      exact mul_nonneg
        (div_nonneg (solarShape_mem_nonneg y solarSin v hv) (le_of_lt hpos))
        (le_of_lt hvol)
    case isFalse _ =>
      exact solarShape_mem_nonneg y solarSin x hx
  · intro i hi hnight
    have hd : ¬(daylight i = true) := by
      simp only [daylight, Bool.and_eq_true, decide_eq_true_eq]
      omega
    have hbase : (solarShape y solarSin).getD i 0 = 0 := by
      rw [solarShape_getD _ _ _ hi, if_neg hd]
      simp
    rw [hser, normalizeSyn_getD, hbase]
    split <;> simp
  · intro i hi h6 h20
    have hd : daylight i = true := by
      simp only [daylight, Bool.and_eq_true, decide_eq_true_eq]
      exact ⟨h6, h20⟩
    rw [solarShape_getD _ _ _ hi, if_pos hd]
    rfl

/-- Witness for C4 at year 2026, volume 5: hour 3 of the year (03:00, outside
the daylight window) carries exactly zero. -/
theorem C4_witness :
    (0 : ℝ) < 5 ∧ 3 < nHours 2026 ∧ hourOfDay 3 < 6 ∧
    (generateProfile 2026 [5, 6] solarSin (fun _ => ([] : List ℝ)) (fun _ => 0)
        "SOLAR_PPA" 5).series.getD 3 0 = 0 :=
  ⟨by norm_num, by decide, by decide,
   (C4_solar_nonneg_zero_at_night 2026 [5, 6] (fun _ => ([] : List ℝ))
      (fun _ => 0) 5 (by norm_num)).2.1 3 (by decide) (Or.inl (by decide))⟩

/-- Claim C5: for OFFICE_BUILDING, an hour is working exactly when its
hour-of-day lies in [8, 18] and its weekday index is below 5; every working
hour carries its own fresh draw (the `workRank`-th draw of the random source)
and every non-working hour carries the constant 0.1, so all non-working hours
have equal pre-normalization weight. -/
theorem C5_office_shape (y : ℕ) (wd : List ℕ) (sv : ℕ → ℚ) (fetch : ℕ → List ℚ)
    (noise : ℕ → ℚ) (vol : ℚ) :
    (generateProfile y wd sv fetch noise "OFFICE_BUILDING" vol).series =
      normalizeSyn (officeShape y noise) vol ∧
    (∀ i, isWorking y i = true ↔
      (8 ≤ hourOfDay i ∧ hourOfDay i ≤ 18 ∧ dayOfWeek y i < 5)) ∧
    (∀ i, i < nHours y → isWorking y i = true →
      (officeShape y noise).getD i 0 = noise (workRank y i)) ∧
    (∀ i, i < nHours y → isWorking y i = false →
      (officeShape y noise).getD i 0 = 0.1) ∧
    (∀ i j, i < nHours y → j < nHours y →
      isWorking y i = false → isWorking y j = false →
      (officeShape y noise).getD i 0 = (officeShape y noise).getD j 0) := by
  refine ⟨?_, ?_, ?_, ?_, ?_⟩
  · rw [generateProfile_fallback _ _ _ _ _ _ _ (by simp)]
    simp
  · intro i
    simp only [isWorking, Bool.and_eq_true, decide_eq_true_eq]
    tauto
  · intro i hi hw
    rw [officeShape_getD _ _ _ hi, if_pos hw]
  · intro i hi hw
    rw [officeShape_getD _ _ _ hi, if_neg (by simp [hw])]
  · intro i j hi hj hwi hwj
    rw [officeShape_getD _ _ _ hi, if_neg (by simp [hwi]),
      officeShape_getD _ _ _ hj, if_neg (by simp [hwj])]

/-- Witness for C5 at year 2026 (Jan 1 is a Thursday): 09:00 on Jan 1 is a
working hour and carries the fresh draw of its working rank; 03:00 on Jan 1 is
a non-working hour and carries the 0.1 baseline. -/
theorem C5_witness :
    9 < nHours 2026 ∧ isWorking 2026 9 = true ∧ isWorking 2026 3 = false ∧
    (officeShape 2026 (fun _ => (2 : ℚ))).getD 3 0 = 0.1 :=
  ⟨by decide, by decide, by decide,
   (C5_office_shape 2026 [5, 6] (fun _ => 0) (fun _ => []) (fun _ => 2)
      100).2.2.2.1 3 (by decide) (by decide)⟩

/-- Claim C6: an archetype string that matches none of the three supported
values raises no error: the fetch is not attempted, the curve stays at its
zero-initialized state through every shaping branch, and the degenerate
normalization path returns a silent all-zero series of calendar length. -/
theorem C6_unknown_archetype_zero_series (y : ℕ) (wd : List ℕ) (sv : ℕ → ℚ)
    (fetch : ℕ → List ℚ) (noise : ℕ → ℚ) (pt : String) (vol : ℚ)
    (h1 : pt ≠ "INDUSTRY_24_7") (h2 : pt ≠ "OFFICE_BUILDING")
    (h3 : pt ≠ "SOLAR_PPA") :
    (generateProfile y wd sv fetch noise pt vol).series =
      List.replicate (nHours y) 0 ∧
    (generateProfile y wd sv fetch noise pt vol).name = "Synthetic Load" ∧
    (generateProfile y wd sv fetch noise pt vol).fetched = none := by
  rw [generateProfile_fallback _ _ _ _ _ _ _ (fun hc => h1 hc.1)]
  simp only [if_neg h1, if_neg h2, if_neg h3]
  have hz : (List.replicate (nHours y) (0 : ℚ)).sum = 0 := by simp
  exact ⟨normalizeSyn_not_pos _ _ (by rw [hz]; exact lt_irrefl 0), trivial, trivial⟩

/-- Witness for C6 with the concrete unrecognised archetype string "WIND_PPA". -/
theorem C6_witness :
    ("WIND_PPA" ≠ "INDUSTRY_24_7" ∧ "WIND_PPA" ≠ "OFFICE_BUILDING" ∧
      "WIND_PPA" ≠ "SOLAR_PPA") ∧
    (generateProfile 2026 [5, 6] (fun _ => 0) (fun _ => ([] : List ℚ))
        (fun _ => 0) "WIND_PPA" 100).series = List.replicate (nHours 2026) 0 :=
  ⟨⟨by decide, by decide, by decide⟩,
   (C6_unknown_archetype_zero_series 2026 [5, 6] (fun _ => 0)
      (fun _ => ([] : List ℚ)) (fun _ => 0) "WIND_PPA" 100
      (by decide) (by decide) (by decide)).1⟩

/-- Claim C7: the retriever is contacted (with the fixed 14-day window) exactly
when the archetype is INDUSTRY_24_7, and an empty response makes the same call
fall back silently to the synthetic INDUSTRY_24_7 shaping, still normalized and
labelled as synthetic — no error, no failure signal. -/
theorem C7_fetch_iff_industry_and_empty_fallback (y : ℕ) (wd : List ℕ)
    (sv : ℕ → ℚ) (fetch : ℕ → List ℚ) (noise : ℕ → ℚ) (pt : String) (vol : ℚ) :
    ((generateProfile y wd sv fetch noise pt vol).fetched = some 14 ↔
      pt = "INDUSTRY_24_7") ∧
    (pt = "INDUSTRY_24_7" → fetch 14 = [] →
      (generateProfile y wd sv fetch noise pt vol).series =
        normalizeSyn (industryShape wd y noise) vol ∧
      (generateProfile y wd sv fetch noise pt vol).name = "Synthetic Load") := by
  constructor
  · by_cases h : pt = "INDUSTRY_24_7" ∧ fetch 14 ≠ []
    · obtain ⟨h1, h2⟩ := h
      subst h1
      rw [generateProfile_real _ _ _ _ _ _ h2]
      simp
    · rw [generateProfile_fallback _ _ _ _ _ _ _ h]
      by_cases h1 : pt = "INDUSTRY_24_7" <;> simp [h1]
  · intro h1 h2
    subst h1
    rw [generateProfile_fallback _ _ _ _ _ _ _ (by simp [h2])]
    simp

/-- Witness for C7: with an empty retriever response the INDUSTRY_24_7 call is
still labelled as synthetic. -/
theorem C7_witness :
    ("INDUSTRY_24_7" = "INDUSTRY_24_7" ∧ (fun _ : ℕ => ([] : List ℚ)) 14 = []) ∧
    (generateProfile 2026 [5, 6] (fun _ => 0) (fun _ => ([] : List ℚ))
        (fun _ => 0) "INDUSTRY_24_7" 100).name = "Synthetic Load" :=
  ⟨⟨rfl, rfl⟩,
   ((C7_fetch_iff_industry_and_empty_fallback 2026 [5, 6] (fun _ => 0)
      (fun _ => ([] : List ℚ)) (fun _ => 0) "INDUSTRY_24_7" 100).2 rfl rfl).2⟩

/-- Claim C8: on the synthetic INDUSTRY_24_7 path every hour carries its own
draw of the random source (Gaussian mean 1.0, std 0.05 in the code), hours
whose weekday lies in the configured weekend set have that draw multiplied by
0.85, and no clamping is applied — a negative draw yields a negative
pre-normalization value. -/
theorem C8_industry_synthetic_shape (y : ℕ) (wd : List ℕ) (sv : ℕ → ℚ)
    (fetch : ℕ → List ℚ) (noise : ℕ → ℚ) (vol : ℚ) (hf : fetch 14 = []) :
    (generateProfile y wd sv fetch noise "INDUSTRY_24_7" vol).series =
      normalizeSyn (industryShape wd y noise) vol ∧
    (∀ i, isWeekend wd y i = true ↔ dayOfWeek y i ∈ wd) ∧
    (∀ i, i < nHours y →
      (industryShape wd y noise).getD i 0 =
        if isWeekend wd y i then noise i * 0.85 else noise i) ∧
    (∀ i, i < nHours y → noise i < 0 →
      (industryShape wd y noise).getD i 0 < 0) := by
  refine ⟨?_, ?_, ?_, ?_⟩
  · rw [generateProfile_fallback _ _ _ _ _ _ _ (by simp [hf])]
    simp
  · intro i
    simp [isWeekend, List.elem_iff]
  · intro i hi
    exact industryShape_getD _ _ _ _ hi
  · intro i hi hneg
    rw [industryShape_getD _ _ _ _ hi]
    split
    · exact mul_neg_of_neg_of_pos hneg (by norm_num)
    · exact hneg

/-- Witness for C8: at year 2026 with weekend set `[5, 6]`, hour 0 (Thursday
Jan 1, 00:00) is not a weekend hour, and a constant negative random source
gives a negative pre-normalization value there. -/
theorem C8_witness :
    (fun _ : ℕ => ([] : List ℚ)) 14 = ([] : List ℚ) ∧ 0 < nHours 2026 ∧
    (industryShape [5, 6] 2026 (fun _ => (-1 : ℚ))).getD 0 0 < 0 :=
  ⟨rfl, by decide,
   (C8_industry_synthetic_shape 2026 [5, 6] (fun _ => 0)
      (fun _ => ([] : List ℚ)) (fun _ => -1) 100 rfl).2.2.2 0 (by decide)
      (by norm_num)⟩

/-- Claim C9 (amended): the exporter writes the entire load curve to the
hourly-data worksheet, and only the inserted line chart is restricted to the
first 168 points (one representative week), its series referencing sheet rows
2 through 169. -/
theorem C9_hourly_sheet_and_chart (loadCurve : List ℚ) :
    (exportHourlySheet loadCurve).dataRows = loadCurve ∧
    (exportHourlySheet loadCurve).chartFirstRow = 2 ∧
    (exportHourlySheet loadCurve).chartLastRow = 169 ∧
    chartDisplayedPoints loadCurve = loadCurve.take 168 := by
  refine ⟨rfl, rfl, rfl, ?_⟩
  simp [chartDisplayedPoints, exportHourlySheet]

/-- Claim C9, counterexample to the claim as stated: the hourly-data worksheet
does not present exactly the first 168 points — for a 200-point load curve the
worksheet holds all 200 points. -/
theorem C9_counterexample :
    (exportHourlySheet (List.replicate 200 (1 : ℚ))).dataRows ≠
      (List.replicate 200 (1 : ℚ)).take 168 := by
  intro h
  have hlen := congrArg List.length h
  simp [exportHourlySheet] at hlen

/-- Claim C10: for archetype SOLAR_PPA, `generate_profile` is deterministic —
with the same year and annual volume it returns the same series no matter what
the random source or the Elia retriever would have produced (and whatever the
configured weekend days are): the solar path consumes no random draws and
performs no fetch. -/
theorem C10_solar_deterministic (y : ℕ) (vol : ℝ) (wd1 wd2 : List ℕ)
    (fetch1 fetch2 : ℕ → List ℝ) (noise1 noise2 : ℕ → ℝ) :
    generateProfile y wd1 solarSin fetch1 noise1 "SOLAR_PPA" vol =
      generateProfile y wd2 solarSin fetch2 noise2 "SOLAR_PPA" vol := by
  rw [generateProfile_fallback _ _ _ _ _ _ _ (by simp),
    generateProfile_fallback _ _ _ _ _ _ _ (by simp)]
  simp

end VoltagePricer
